import Mathlib

/-!
Verification development for the ffmpeg-renderer caption compiler.

The JavaScript sources are shallowly embedded: JS numbers are modelled as
exact rationals (`ℚ`), JS strings as `List Char`, optional / possibly
`undefined` fields as `Option`.  Each definition follows the corresponding
function in `src/server.js` or the variant files under `src/unnamed/`.
-/

namespace FfmpegRenderer

/-- JS strings are modelled as lists of characters. -/
abbrev JStr := List Char

/-- JS `Math.round` (round half toward positive infinity). -/
def jsRound (x : ℚ) : ℤ := ⌊x + 1/2⌋

/-- Truncation toward zero, as used by the JS `%` operator. -/
def jsTrunc (x : ℚ) : ℤ := if 0 ≤ x then ⌊x⌋ else ⌈x⌉

/-- JS `%` on finite numbers: remainder with the sign of the dividend. -/
def jsMod (a b : ℚ) : ℚ := a - b * (jsTrunc (a / b) : ℚ)

/-- JS `x || d` for a numeric field: `undefined`, and the falsy number `0`,
fall back to the default. -/
def jsNumOr (o : Option ℚ) (d : ℚ) : ℚ :=
  match o with
  | some v => if v = 0 then d else v
  | none => d

/-- JS `x || d` for a string field: `undefined` and the falsy empty string
fall back to the default. -/
def jsStrOr (o : Option JStr) (d : JStr) : JStr :=
  match o with
  | some s => if s = [] then d else s
  | none => d

/-- JS truthiness of a string-or-`undefined` value. -/
def strTruthy (o : Option JStr) : Bool :=
  match o with
  | some s => s ≠ []
  | none => false

/-- The decimal digit character for `d` (`d < 10`). -/
def digitChar (d : ℕ) : Char :=
  if d = 0 then '0' else if d = 1 then '1' else if d = 2 then '2'
  else if d = 3 then '3' else if d = 4 then '4' else if d = 5 then '5'
  else if d = 6 then '6' else if d = 7 then '7' else if d = 8 then '8' else '9'

/-- Fuelled decimal-rendering worker (structurally recursive so that it
reduces inside the kernel; the fuel is always sufficient as used). -/
def natToCharsAux (fuel n : ℕ) : List Char :=
  match fuel with
  | 0 => []
  | fuel + 1 =>
    if n < 10 then [digitChar n]
    else natToCharsAux fuel (n / 10) ++ [digitChar (n % 10)]

/-- Decimal rendering of a natural number, as JS `String(n)` produces it. -/
def natToChars (n : ℕ) : List Char := natToCharsAux (n + 1) n

/-- Decimal rendering of an integer. -/
def intToChars (i : ℤ) : List Char :=
  if i < 0 then '-' :: natToChars i.natAbs else natToChars i.toNat

/-- JS `String.prototype.padStart(2, '0')`. -/
def padStart2 (l : JStr) : JStr :=
  if l.length < 2 then List.replicate (2 - l.length) '0' ++ l else l

/-- Value of a string of decimal digits (leading zeros allowed). -/
def digitsVal (cs : List Char) : ℕ :=
  cs.foldl (fun a c => 10 * a + (c.toNat - 48)) 0

/-- Is `c` a decimal digit? -/
def isDigitChar (c : Char) : Bool := 48 ≤ c.toNat && c.toNat ≤ 57

/-- `secToAss` from `src/server.js` lines 53-59: format a time offset in
seconds as an ASS timestamp `H:MM:SS.cc`. -/
def secToAss (tSec : ℚ) : JStr :=
  let h : ℤ := ⌊tSec / 3600⌋
  let m : ℤ := ⌊(jsMod tSec 3600) / 60⌋
  let s : ℤ := ⌊jsMod tSec 60⌋
  let cs : ℤ := ⌊(tSec - (⌊tSec⌋ : ℚ)) * 100⌋
  intToChars h ++ ':' :: padStart2 (intToChars m)
    ++ ':' :: padStart2 (intToChars s)
    ++ '.' :: padStart2 (intToChars cs)

/-- Not the `:` separator (used by the timestamp grammar). -/
def notColon (c : Char) : Bool := c ≠ ':'

/-- Not the `.` separator (used by the timestamp grammar). -/
def notDot (c : Char) : Bool := c ≠ '.'

/-- Reparse an ASS timestamp under the grammar `H:MM:SS.cc` (hours a
non-empty digit string, minutes/seconds/centiseconds exactly two digits),
yielding the denoted number of seconds. -/
def parseAssTime (cs : JStr) : Option ℚ :=
  let hPart := cs.takeWhile notColon
  let rest1 := ((cs.dropWhile notColon).drop 1)
  let mPart := rest1.takeWhile notColon
  let rest2 := ((rest1.dropWhile notColon).drop 1)
  let sPart := rest2.takeWhile notDot
  let cPart := ((rest2.dropWhile notDot).drop 1)
  if hPart ≠ [] ∧ hPart.all isDigitChar ∧
     mPart.length = 2 ∧ mPart.all isDigitChar ∧
     sPart.length = 2 ∧ sPart.all isDigitChar ∧
     cPart.length = 2 ∧ cPart.all isDigitChar then
    some ((digitsVal hPart : ℚ) * 3600 + (digitsVal mPart : ℚ) * 60
      + (digitsVal sPart : ℚ) + (digitsVal cPart : ℚ) / 100)
  else none

/-- The whitespace characters recognised by the model of JS `trim` and
`\s` (ASCII subset). -/
def isJsSpace (c : Char) : Bool :=
  c = ' ' || c = '\t' || c = '\n' || c = '\r' || c = '\x0b' || c = '\x0c'

/-- JS `String.prototype.trim`. -/
def jsTrim (l : JStr) : JStr :=
  ((l.dropWhile isJsSpace).reverse.dropWhile isJsSpace).reverse

/-- `cssToAssColor` from `src/server.js` lines 109-137: CSS color token to
the ASS `&H<alpha><blue><green><red>` encoding. -/
def cssToAssColor (inp : Option JStr) (alpha : JStr := ['0', '0']) : JStr :=
  let hex : Option JStr :=
    match inp with
    | none => none
    | some h0 =>
      let h1 := if h0 = "white".toList then "#FFFFFF".toList else h0
      let h2 := if h1 = "yellow".toList then "#F7B500".toList else h1
      let h3 := if h2 = "black".toList then "#000000".toList else h2
      some h3
  match hex with
  | none => "&H00FFFFFF".toList
  | some h =>
    if h = [] then "&H00FFFFFF".toList
    else if h.take 1 ≠ ['#'] then "&H00FFFFFF".toList
    else if h.length = 7 then
      let r := (h.drop 1).take 2
      let g := (h.drop 3).take 2
      let b := (h.drop 5).take 2
      ("&H".toList ++ alpha ++ b ++ g ++ r).map Char.toUpper
    else if h.length = 4 then
      let r := (h.drop 1).take 1 ++ (h.drop 1).take 1
      let g := (h.drop 2).take 1 ++ (h.drop 2).take 1
      let b := (h.drop 3).take 1 ++ (h.drop 3).take 1
      ("&H".toList ++ alpha ++ b ++ g ++ r).map Char.toUpper
    else "&H00FFFFFF".toList

/-- The `\r\n?` → `\n` normalisation step of `escapeAssText`. -/
def crlfToLf : JStr → JStr
  | [] => []
  | '\r' :: '\n' :: rest => '\n' :: crlfToLf rest
  | '\r' :: rest => '\n' :: crlfToLf rest
  | c :: rest => c :: crlfToLf rest

/-- The control characters stripped by `escapeAssText`
(regex `[\x00-\x08\x0B\x0C\x0E-\x1F]`). -/
def isStrippedCtl (c : Char) : Bool :=
  c.toNat ≤ 8 || c.toNat = 11 || c.toNat = 12 || (14 ≤ c.toNat && c.toNat ≤ 31)

/-- `escapeAssText` from `src/unnamed/part_001` lines 39-49 (identical in
`src/unnamed/part_002`): trim, normalise line breaks to `\N`, escape
backslashes, escape braces, strip control characters — in that order. -/
def escapeAssText (inp : Option JStr) : JStr :=
  match inp with
  | none => []
  | some s =>
    if s = [] then []
    else
      let t1 := jsTrim s
      let t2 := (crlfToLf t1).flatMap (fun c => if c = '\n' then ['\\', 'N'] else [c])
      let t3 := t2.flatMap (fun c => if c = '\\' then ['\\', '\\'] else [c])
      let t4 := t3.flatMap (fun c =>
        if c = '\x7b' then ['\\', '\x7b']
        else if c = '\x7d' then ['\\', '\x7d'] else [c])
      t4.filter (fun c => !(isStrippedCtl c))

/-- A caption frame as received in the request body. -/
structure Frame where
  start : Option ℚ
  «end» : Option ℚ
  line1 : Option JStr
  line2 : Option JStr

/-- A style configuration object as received in the request body. -/
structure Styles where
  fontTop : Option JStr
  fontBottom : Option JStr
  fontSizeTop : Option ℚ
  fontSizeBottom : Option ℚ
  colorTop : Option JStr
  colorBottom : Option JStr
  fontWeightTop : Option JStr
  fontWeightBottom : Option JStr
  fontStyleTop : Option JStr
  fontStyleBottom : Option JStr
  isItalicTop : Bool
  isItalicBottom : Bool
  paddingBottom : Option ℚ

/-- The style object with every field absent. -/
def emptyStyles : Styles :=
  ⟨none, none, none, none, none, none, none, none, none, none, false, false, none⟩

/-- The guard `f.lineN && f.lineN.trim() !== ''` of `framesToAss` in
`src/server.js`. -/
def serverLineCond (l : Option JStr) : Bool :=
  match l with
  | some s => s ≠ [] && jsTrim s ≠ []
  | none => false

/-- `startSec` of `src/server.js` line 185: `(f.start || 0) / 1000`. -/
def serverStartSec (f : Frame) : ℚ := jsNumOr f.start 0 / 1000

/-- `endSec` of `src/server.js` line 186:
`(f.end || (startSec + 2000)) / 1000` — note that `startSec` is already in
seconds when `2000` is added to it. -/
def serverEndSec (f : Frame) : ℚ :=
  jsNumOr f.«end» (serverStartSec f + 2000) / 1000

/-- The per-word fade-in text built by `framesToAss` in `src/server.js`
lines 197-219 (50 ms stagger, 500 ms fade, words split on whitespace). -/
def animatedTextOf (line : JStr) : JStr :=
  let words := (line.splitOnP isJsSpace).filter (fun w => w ≠ [])
  jsTrim (words.enum.foldl (fun acc iw =>
    let startTime := iw.1 * 50
    let endTime := startTime + 500
    acc ++ "\x7b\\alpha&HFF&\\t(".toList ++ natToChars startTime
        ++ ", ".toList ++ natToChars endTime ++ ", \\alpha&H00&)\x7d".toList
        ++ (iw.2.flatMap (fun c => if c = '\n' then ['\\', 'N'] else [c]))
        ++ [' ']) [])

/-- The `Dialogue` events contributed by one frame in `framesToAss` of
`src/server.js` lines 184-221. -/
def serverFrameEvents (f : Frame) : List JStr :=
  let startAss := secToAss (serverStartSec f)
  let endAss := secToAss (serverEndSec f)
  (if serverLineCond f.line1 then
    ["Dialogue: 0,".toList ++ startAss ++ ',' :: endAss
      ++ ",STYLE1,,0,0,0,,".toList ++ animatedTextOf (f.line1.getD [])]
  else []) ++
  (if serverLineCond f.line2 then
    ["Dialogue: 0,".toList ++ startAss ++ ',' :: endAss
      ++ ",STYLE2,,0,0,0,,".toList ++ animatedTextOf (f.line2.getD [])]
  else [])

/-- The ordered event list of the subtitle document built by `framesToAss`
in `src/server.js` (the `frames.flatMap(...)` of line 184). -/
def serverFramesToAssEvents (frames : List Frame) : List JStr :=
  frames.flatMap serverFrameEvents

/-- Decimal rendering of a model number.  All numbers interpolated into the
generated documents by the source are integer-valued; the fraction case is
given a definite (if arbitrary) rendering so the function stays total. -/
def jsNumRender (q : ℚ) : JStr :=
  if q.den = 1 then intToChars q.num
  else intToChars q.num ++ '/' :: natToChars q.den

/-- `Array.prototype.join('\n')`. -/
def joinNl : List JStr → JStr
  | [] => []
  | [l] => l
  | l :: l2 :: rest => l ++ '\n' :: joinNl (l2 :: rest)

/-- The `[Script Info]`/`[V4+ Styles]`/`[Events]` header of `framesToAss`
in `src/server.js` lines 143-182, including the two style records. -/
def serverHeader (styles : Option Styles) (playResX playResY : ℕ) : JStr :=
  let font1 := jsStrOr (styles.bind Styles.fontTop) "Lexend".toList
  let size1 := jsNumOr (styles.bind Styles.fontSizeTop) 80
  let color1 := cssToAssColor (styles.bind Styles.colorTop)
  let weight1 : JStr :=
    if styles.bind Styles.fontWeightTop = some ("bold".toList)
       ∨ styles.bind Styles.fontWeightTop = some ("700".toList)
    then ['1'] else ['0']
  let italic1 : JStr :=
    if styles.bind Styles.fontStyleTop = some ("italic".toList) then ['1'] else ['0']
  let font2 := jsStrOr (styles.bind Styles.fontBottom) "Lexend".toList
  let size2 := jsNumOr (styles.bind Styles.fontSizeBottom) 80
  let color2 := cssToAssColor (styles.bind Styles.colorBottom)
  let weight2 : JStr :=
    if styles.bind Styles.fontWeightBottom = some ("bold".toList)
       ∨ styles.bind Styles.fontWeightBottom = some ("700".toList)
    then ['1'] else ['0']
  let italic2 : JStr :=
    if styles.bind Styles.fontStyleBottom = some ("italic".toList) then ['1'] else ['0']
  let marginV_Line2 := jsNumOr (styles.bind Styles.paddingBottom) 100
  let marginV_Line1 := marginV_Line2 + (jsRound (size2 * 1.2) : ℚ)
  "[Script Info]\nScriptType: v4.00+\nPlayResX: ".toList ++ natToChars playResX
  ++ "\nPlayResY: ".toList ++ natToChars playResY
  ++ "\nWrapStyle: 0\n\n[V4+ Styles]\nFormat: Name, Fontname, Fontsize, PrimaryColour, SecondaryColour, OutlineColour, BackColour, Bold, Italic, Underline, StrikeOut, ScaleX, ScaleY, Spacing, Angle, BorderStyle, Outline, Shadow, Alignment, MarginL, MarginR, MarginV, Encoding\nStyle: STYLE1,".toList
  ++ font1 ++ ',' :: jsNumRender size1 ++ ',' :: color1
  ++ ",&H000000FF,&H00000000,&H80000000,".toList ++ weight1 ++ ',' :: italic1
  ++ ",0,0,100,100,0,0,1,0,2,2,20,20,".toList ++ jsNumRender marginV_Line1
  ++ ",1\nStyle: STYLE2,".toList
  ++ font2 ++ ',' :: jsNumRender size2 ++ ',' :: color2
  ++ ",&H000000FF,&H00000000,&H80000000,".toList ++ weight2 ++ ',' :: italic2
  ++ ",0,0,100,100,0,0,1,0,2,2,20,20,".toList ++ jsNumRender marginV_Line2
  ++ ",1\n\n[Events]\nFormat: Layer, Start, End, Style, Name, MarginL, MarginR, MarginV, Effect, Text\n".toList

/-- `framesToAss` from `src/server.js` lines 141-225: the complete subtitle
document string. -/
def serverFramesToAss (frames : List Frame) (styles : Option Styles)
    (playResX playResY : ℕ) : JStr :=
  serverHeader styles playResX playResY ++ joinNl (serverFramesToAssEvents frames)

/-! ### Layout calculator of `src/unnamed/part_001` (`framesToAss`, lines 91-134) -/

/-- The reference canvas height of the `part_001` layout. -/
def REF_HEIGHT : ℚ := 1080

/-- `const scale = (videoHeight || REF_HEIGHT) / REF_HEIGHT`. -/
def p1scale (videoHeight : ℚ) : ℚ :=
  (if videoHeight = 0 then REF_HEIGHT else videoHeight) / REF_HEIGHT

/-- `fontSizeTop = Math.max(18, Math.min(280, Math.round(rawFontTop * scale)))`
with `rawFontTop = styles.fontSizeTop || 40`. -/
def p1fontSizeTop (styles : Styles) (videoHeight : ℚ) : ℤ :=
  max 18 (min 280 (jsRound (jsNumOr styles.fontSizeTop 40 * p1scale videoHeight)))

/-- `fontSizeBottom = Math.max(20, Math.min(320, Math.round(rawFontBottom * scale)))`
with `rawFontBottom = styles.fontSizeBottom || 52`. -/
def p1fontSizeBottom (styles : Styles) (videoHeight : ℚ) : ℤ :=
  max 20 (min 320 (jsRound (jsNumOr styles.fontSizeBottom 52 * p1scale videoHeight)))

/-- `padScaled = Math.round(paddingBottom * scale)` with
`paddingBottom = styles.paddingBottom != null ? styles.paddingBottom : 120`. -/
def p1padScaled (styles : Styles) (videoHeight : ℚ) : ℤ :=
  jsRound (styles.paddingBottom.getD 120 * p1scale videoHeight)

/-- `baseGap = Math.round(20 * scale)`. -/
def p1baseGap (videoHeight : ℚ) : ℤ := jsRound (20 * p1scale videoHeight)

/-- `frames.some(f => f.line1 && f.line1.trim() && f.line2 && f.line2.trim())`. -/
def p1twoLinePresent (frames : List Frame) : Bool :=
  frames.any (fun f => serverLineCond f.line1 && serverLineCond f.line2)

/-- `Y_pos_Line2` of `part_001` lines 123-129: bottom anchor, nudged down by
`Math.round(fontSizeBottom * 0.28)` when some frame carries both lines. -/
def p1YposLine2 (frames : List Frame) (styles : Styles) (videoHeight : ℚ) : ℚ :=
  videoHeight - (p1padScaled styles videoHeight : ℚ)
  + (if p1twoLinePresent frames
     then ((jsRound ((p1fontSizeBottom styles videoHeight : ℚ) * 0.28) : ℤ) : ℚ)
     else 0)

/-- `Y_pos_Line1` of `part_001` lines 131-134: the top anchor, derived from
the bottom anchor via the baseline factors 0.66/0.28 and gap 0.22. -/
def p1YposLine1 (frames : List Frame) (styles : Styles) (videoHeight : ℚ) : ℚ :=
  p1YposLine2 frames styles videoHeight
  - (p1fontSizeBottom styles videoHeight : ℚ) * 0.66
  - (p1fontSizeTop styles videoHeight : ℚ) * 0.28
  - ((p1baseGap videoHeight : ℚ) + (p1fontSizeBottom styles videoHeight : ℚ) * 0.22)

/-! ### The `/render` pipeline of `src/unnamed/part_001` (lines 190-331) -/

/-- `path.join(TMP_DIR, 'in-' + job_id + '.mp4')`. -/
def p1inputPath (jobId : JStr) : JStr := "/tmp/in-".toList ++ jobId ++ ".mp4".toList

/-- `path.join(TMP_DIR, 'subs-' + job_id + '.ass')`. -/
def p1assPath (jobId : JStr) : JStr := "/tmp/subs-".toList ++ jobId ++ ".ass".toList

/-- `path.join(TMP_DIR, 'watermark-' + job_id + '.png')`. -/
def p1watermarkPath (jobId : JStr) : JStr :=
  "/tmp/watermark-".toList ++ jobId ++ ".png".toList

/-- `path.join(TMP_DIR, 'out-' + job_id + '.mp4')`. -/
def p1outPath (jobId : JStr) : JStr := "/tmp/out-".toList ++ jobId ++ ".mp4".toList

/-- `str.replace(/'/g, "\\'")`. -/
def escSingleQuote (l : JStr) : JStr :=
  l.flatMap (fun c => if c = '\x27' then ['\\', '\x27'] else [c])

/-- The `ass=filename='...':fontsdir='...'` filter of `part_001` line 263. -/
def p1assFilter (jobId fontsDir : JStr) : JStr :=
  "ass=filename=\x27".toList ++ escSingleQuote (p1assPath jobId)
  ++ "\x27:fontsdir=\x27".toList ++ escSingleQuote fontsDir ++ ['\x27']

/-- `filterComplex` of the image-watermark branch (`part_001` line 276):
scale input 0 (the watermark) to height 28, overlay it on input 1 (the
video), then burn the subtitles. -/
def p1filterComplexImage (jobId fontsDir : JStr) : JStr :=
  "[0:v]scale=-1:".toList ++ natToChars 28
  ++ "[wm_scaled];[1:v][wm_scaled]overlay=x=main_w-overlay_w-".toList
  ++ natToChars 18 ++ ":y=".toList ++ natToChars 18
  ++ "[v_wm];[v_wm]".toList ++ p1assFilter jobId fontsDir ++ "[v]".toList

/-- The `drawtext` text-watermark snippet of `part_001` line 282. -/
def p1drawtext : JStr :=
  "drawtext=text=\x27AiVideoCaptioner\x27:fontsize=".toList ++ natToChars 16
  ++ ":fontcolor=white@0.7:x=main_w-tw-".toList ++ natToChars 18
  ++ ":y=".toList ++ natToChars 18

/-- `filterComplex` of the text-watermark branch (`part_001` line 283). -/
def p1filterComplexText (jobId fontsDir : JStr) : JStr :=
  "[0:v]".toList ++ p1drawtext ++ "[v_wm];[v_wm]".toList
  ++ p1assFilter jobId fontsDir ++ "[v]".toList

/-- `filterComplex` of the no-watermark branch (`part_001` line 288). -/
def p1filterComplexPlain (jobId fontsDir : JStr) : JStr :=
  "[0:v]".toList ++ p1assFilter jobId fontsDir ++ "[v]".toList

/-- `ffArgs` of the image-watermark branch (`part_001` line 277):
watermark file is input 0, the source video is input 1, audio is mapped
from `1:a` with the optional-stream marker. -/
def p1ffArgsImage (jobId fontsDir : JStr) : List JStr :=
  ["-y".toList, "-i".toList, p1watermarkPath jobId, "-i".toList, p1inputPath jobId,
   "-filter_complex".toList, p1filterComplexImage jobId fontsDir,
   "-map".toList, "[v]".toList, "-map".toList, "1:a?".toList,
   "-c:v".toList, "libx264".toList, "-preset".toList, "veryfast".toList,
   "-crf".toList, "23".toList, "-c:a".toList, "copy".toList, p1outPath jobId]

/-- `ffArgs` of the text-watermark branch (`part_001` line 284). -/
def p1ffArgsText (jobId fontsDir : JStr) : List JStr :=
  ["-y".toList, "-i".toList, p1inputPath jobId,
   "-filter_complex".toList, p1filterComplexText jobId fontsDir,
   "-map".toList, "[v]".toList, "-map".toList, "0:a?".toList,
   "-c:v".toList, "libx264".toList, "-preset".toList, "veryfast".toList,
   "-crf".toList, "23".toList, "-c:a".toList, "copy".toList, p1outPath jobId]

/-- `ffArgs` of the no-watermark branch (`part_001` line 289). -/
def p1ffArgsPlain (jobId fontsDir : JStr) : List JStr :=
  ["-y".toList, "-i".toList, p1inputPath jobId,
   "-filter_complex".toList, p1filterComplexPlain jobId fontsDir,
   "-map".toList, "[v]".toList, "-map".toList, "0:a?".toList,
   "-c:v".toList, "libx264".toList, "-preset".toList, "veryfast".toList,
   "-crf".toList, "23".toList, "-c:a".toList, "copy".toList, p1outPath jobId]

/-- The three terminal watermark strategies. -/
inductive WatermarkMode
  | NONE
  | IMAGE
  | TEXT
deriving DecidableEq

/-- A `/render` request body (plus the `X-Render-Secret` header). -/
structure RenderReq where
  headerSecret : Option JStr
  bodySecret : Option JStr
  job_id : Option JStr
  video_url : Option JStr
  frames : Option (List Frame)
  style : Option Styles
  callback_url : Option JStr
  watermark_url : Option JStr
  plan_tier : Option JStr

/-- The externally observable pipeline steps of one `/render` invocation. -/
inductive Step
  | downloadVideo
  | probeResolution
  | downloadWatermark
  | writeAss
  | encode
  | upload
  | callback
deriving DecidableEq

/-- Oracle results for the external collaborators of one invocation. -/
structure World where
  videoDownloadOk : Bool
  probe : Option (ℕ × ℕ)
  watermarkDownloadOk : Bool
  encodeOk : Bool
  uploadOk : Bool

/-- The observable outcome of one `/render` invocation: HTTP status, the
`status`/`error` fields of the JSON body, the pipeline steps attempted, and
(once reached) the selected watermark branch and ffmpeg argument list. -/
structure Outcome where
  status : ℕ
  bodyStatus : JStr
  bodyError : Option JStr
  steps : List Step
  mode : Option WatermarkMode
  ffArgs : Option (List JStr)

/-- The `/render` handler of `src/unnamed/part_001` lines 190-331, as a
function of the request, the configured secret and fonts directory, and the
collaborator oracle.  Auth is checked first, then the required fields; the
watermark asset is downloaded only when `plan_tier === 'free'` and a
`watermark_url` is present, and a failed watermark download demotes the
image branch to the text branch without failing the job. -/
def renderHandler (secret fontsDir : JStr) (req : RenderReq) (w : World) : Outcome :=
  let provided := jsStrOr req.headerSecret (jsStrOr req.bodySecret [])
  if provided ≠ secret then
    ⟨401, "error".toList, some "unauthorized".toList, [], none, none⟩
  else if !strTruthy req.video_url || !strTruthy req.job_id then
    ⟨400, "error".toList, some "missing video_url or job_id".toList, [], none, none⟩
  else
    let jobId := req.job_id.getD []
    let shouldAddWatermark := req.plan_tier = some ("free".toList)
    if !w.videoDownloadOk then
      ⟨500, "error".toList, some "Video download failed".toList,
        [Step.downloadVideo], none, none⟩
    else
      let wmAttempt := shouldAddWatermark && strTruthy req.watermark_url
      let watermarkInput : Option JStr :=
        if wmAttempt && w.watermarkDownloadOk then some (p1watermarkPath jobId) else none
      let steps0 := [Step.downloadVideo, Step.probeResolution]
        ++ (if wmAttempt then [Step.downloadWatermark] else []) ++ [Step.writeAss]
      let mode := if shouldAddWatermark then
          (if watermarkInput.isSome then WatermarkMode.IMAGE else WatermarkMode.TEXT)
        else WatermarkMode.NONE
      let ffArgs := match mode with
        | WatermarkMode.IMAGE => p1ffArgsImage jobId fontsDir
        | WatermarkMode.TEXT => p1ffArgsText jobId fontsDir
        | WatermarkMode.NONE => p1ffArgsPlain jobId fontsDir
      if !w.encodeOk then
        ⟨500, "error".toList, some "ffmpeg failed".toList,
          steps0 ++ [Step.encode], some mode, some ffArgs⟩
      else if !w.uploadOk then
        ⟨500, "error".toList, some "upload failed".toList,
          steps0 ++ [Step.encode, Step.upload], some mode, some ffArgs⟩
      else
        ⟨200, "success".toList, none,
          steps0 ++ [Step.encode, Step.upload]
            ++ (if strTruthy req.callback_url then [Step.callback] else []),
          some mode, some ffArgs⟩

/-! ### Structural view of the composition graph (for relating the built
`filter_complex` strings and argument lists to their pad wiring) -/

/-- One filter stage: consumed pad labels, filter body, produced pad label. -/
structure Stage where
  inputs : List JStr
  filterBody : JStr
  output : JStr

/-- Render one stage in the ffmpeg filter-graph mini-language:
`[in1][in2]body[out]`. -/
def renderStage (st : Stage) : JStr :=
  (st.inputs.flatMap (fun i => '[' :: i ++ [']'])) ++ st.filterBody
    ++ '[' :: st.output ++ [']']

/-- Render a stage list, `;`-separated. -/
def renderGraph : List Stage → JStr
  | [] => []
  | [st] => renderStage st
  | st :: st2 :: rest => renderStage st ++ ';' :: renderGraph (st2 :: rest)

/-- The structural composition graph of the image-watermark branch:
scale the watermark pad `0:v`, overlay it onto the video pad `1:v`, then
burn the subtitles, producing the final pad `v`. -/
def p1ImageGraph (jobId fontsDir : JStr) : List Stage :=
  [⟨["0:v".toList], "scale=-1:28".toList, "wm_scaled".toList⟩,
   ⟨["1:v".toList, "wm_scaled".toList],
     "overlay=x=main_w-overlay_w-18:y=18".toList, "v_wm".toList⟩,
   ⟨["v_wm".toList], p1assFilter jobId fontsDir, "v".toList⟩]

/-- The file inputs of an ffmpeg argument list, in order: every argument
following a `-i`. -/
def inputsOf : List JStr → List JStr
  | [] => []
  | a :: rest =>
    if a = "-i".toList then
      match rest with
      | [] => []
      | b :: rest2 => b :: inputsOf rest2
    else inputsOf rest

/-- The stream selections of an ffmpeg argument list, in order: every
argument following a `-map`. -/
def mapsOf : List JStr → List JStr
  | [] => []
  | a :: rest =>
    if a = "-map".toList then
      match rest with
      | [] => []
      | b :: rest2 => b :: mapsOf rest2
    else mapsOf rest

/-- The input-file index named by a `-map` stream selector such as `1:a?`. -/
def mapInputIndex (m : JStr) : ℕ := digitsVal (m.takeWhile (fun c => c ≠ ':'))

/-- Whether a `-map` stream selector carries the optional-stream marker `?`. -/
def mapOptionalMarker (m : JStr) : Bool := m.getLast? = some '?'

/-! ### Claim C4: the color codec -/

/-- Claim C4: the color codec never errors and sends invalid, missing or
malformed input (no leading `#` and not a recognised name, or a `#` string
of wrong length) to the opaque-white encoding; `#RGB` shorthand expands
each nibble by duplication; the named colors white, yellow, black resolve
to canonical hex before channel splitting, so `"yellow"` encodes like its
canonical hex, `"#FFFFFF"` is opaque white, `"#000000"` opaque black, and
`"notacolor"`, `"#12"` fall back to opaque white. -/
theorem cssToAssColor_contract :
    (∀ alpha, cssToAssColor none alpha = "&H00FFFFFF".toList)
    ∧ (∀ s alpha, s.take 1 ≠ ['#'] → s ≠ "white".toList → s ≠ "yellow".toList →
        s ≠ "black".toList → cssToAssColor (some s) alpha = "&H00FFFFFF".toList)
    ∧ (∀ s alpha, s.take 1 = ['#'] → s.length ≠ 7 → s.length ≠ 4 →
        cssToAssColor (some s) alpha = "&H00FFFFFF".toList)
    ∧ (∀ a b c : Char,
        cssToAssColor (some ['#', a, b, c]) = cssToAssColor (some ['#', a, a, b, b, c, c]))
    ∧ cssToAssColor (some ("yellow".toList)) = cssToAssColor (some ("#F7B500".toList))
    ∧ cssToAssColor (some ("white".toList)) = cssToAssColor (some ("#FFFFFF".toList))
    ∧ cssToAssColor (some ("black".toList)) = cssToAssColor (some ("#000000".toList))
    ∧ cssToAssColor (some ("#FFFFFF".toList)) = "&H00FFFFFF".toList
    ∧ cssToAssColor (some ("#000000".toList)) = "&H00000000".toList
    ∧ cssToAssColor (some ("notacolor".toList)) = "&H00FFFFFF".toList
    ∧ cssToAssColor (some ("#12".toList)) = "&H00FFFFFF".toList := by
  refine ⟨fun alpha => rfl, ?_, ?_, fun a b c => rfl, rfl, rfl, rfl, rfl, rfl, rfl, rfl⟩
  · intro s alpha hpound hw hy hb
    unfold cssToAssColor
    simp only [hw, if_false, hy, hb]
    by_cases hnil : s = []
    · subst hnil; rfl
    · simp [hnil, hpound]
  · intro s alpha hpound h7 h4
    cases s with
    | nil => exact absurd hpound (by decide)
    | cons a t =>
      have ha : a = '#' := by
        simpa [List.take] using hpound
      subst ha
      have h7' : t.length ≠ 6 := fun h => h7 (by simp [h])
      have h4' : t.length ≠ 3 := fun h => h4 (by simp [h])
      unfold cssToAssColor
      simp [List.cons.injEq, h7', h4']

/-- Witness for C4's universally quantified parts at concrete inputs. -/
theorem cssToAssColor_contract_witness :
    cssToAssColor (some ("foo".toList)) ['0', '0'] = "&H00FFFFFF".toList
    ∧ cssToAssColor (some ("#12345".toList)) ['0', '0'] = "&H00FFFFFF".toList :=
  ⟨cssToAssColor_contract.2.1 ("foo".toList) ['0', '0'] (by decide) (by decide)
      (by decide) (by decide),
   cssToAssColor_contract.2.2.1 ("#12345".toList) ['0', '0'] (by decide) (by decide)
      (by decide)⟩

/-! ### Claim C6: default end time of a frame -/

/-- Evaluation helper: `secToAss` at a value whose four time components
have been computed. -/
theorem secToAss_concrete (t : ℚ) (h m s cs : ℤ)
    (h1 : ⌊t / 3600⌋ = h) (h2 : ⌊jsMod t 3600 / 60⌋ = m)
    (h3 : ⌊jsMod t 60⌋ = s) (h4 : ⌊(t - (⌊t⌋ : ℚ)) * 100⌋ = cs) :
    secToAss t = intToChars h ++ ':' :: padStart2 (intToChars m)
      ++ ':' :: padStart2 (intToChars s) ++ '.' :: padStart2 (intToChars cs) := by
  unfold secToAss
  rw [h1, h2, h3, h4]

/-- Claim C6: for a frame with a missing `end`, `src/server.js` computes
`endSec = (startSec + 2000) / 1000` where `startSec` is already in seconds,
so for `start = 2000` ms the emitted end timestamp is `0:00:02.00` instead
of the `(2000 + 2000) / 1000 = 4` seconds (`0:00:04.00`) that the
documented default `end = start + 2000` milliseconds requires. -/
theorem serverEndSec_default_bug :
    serverEndSec ⟨some 2000, none, some ("Hi".toList), none⟩ = 2002 / 1000
    ∧ ((2000 : ℚ) + 2000) / 1000 = 4
    ∧ secToAss (serverEndSec ⟨some 2000, none, some ("Hi".toList), none⟩)
        = "0:00:02.00".toList
    ∧ secToAss (((2000 : ℚ) + 2000) / 1000) = "0:00:04.00".toList
    ∧ serverEndSec ⟨some 2000, none, some ("Hi".toList), none⟩ ≠ ((2000 : ℚ) + 2000) / 1000 := by
  have hval : serverEndSec ⟨some 2000, none, some ("Hi".toList), none⟩ = 2002 / 1000 := by
    simp only [serverEndSec, serverStartSec, jsNumOr]
    norm_num
  have hmod1 : jsMod (2002 / 1000 : ℚ) 3600 = 2002 / 1000 := by
    simp only [jsMod, jsTrunc]
    rw [if_pos (by norm_num), show ⌊(2002 / 1000 : ℚ) / 3600⌋ = 0 by norm_num [Int.floor_eq_iff]]
    norm_num
  have hmod2 : jsMod (2002 / 1000 : ℚ) 60 = 2002 / 1000 := by
    simp only [jsMod, jsTrunc]
    rw [if_pos (by norm_num), show ⌊(2002 / 1000 : ℚ) / 60⌋ = 0 by norm_num [Int.floor_eq_iff]]
    norm_num
  have hstr1 : secToAss (2002 / 1000 : ℚ) = "0:00:02.00".toList := by
    rw [secToAss_concrete (2002 / 1000 : ℚ) 0 0 2 0
      (by norm_num [Int.floor_eq_iff])
      (by rw [hmod1]; norm_num [Int.floor_eq_iff])
      (by rw [hmod2]; norm_num [Int.floor_eq_iff])
      (by rw [show ⌊(2002 / 1000 : ℚ)⌋ = 2 by norm_num [Int.floor_eq_iff]]
          norm_num [Int.floor_eq_iff])]
    rfl
  have hmod3 : jsMod (4 : ℚ) 3600 = 4 := by
    simp only [jsMod, jsTrunc]
    rw [if_pos (by norm_num), show ⌊(4 : ℚ) / 3600⌋ = 0 by norm_num [Int.floor_eq_iff]]
    norm_num
  have hmod4 : jsMod (4 : ℚ) 60 = 4 := by
    simp only [jsMod, jsTrunc]
    rw [if_pos (by norm_num), show ⌊(4 : ℚ) / 60⌋ = 0 by norm_num [Int.floor_eq_iff]]
    norm_num
  have hstr2 : secToAss (4 : ℚ) = "0:00:04.00".toList := by
    rw [secToAss_concrete (4 : ℚ) 0 0 4 0
      (by norm_num [Int.floor_eq_iff])
      (by rw [hmod3]; norm_num [Int.floor_eq_iff])
      (by rw [hmod4]; norm_num [Int.floor_eq_iff])
      (by rw [show ⌊(4 : ℚ)⌋ = 4 by norm_num [Int.floor_eq_iff]]
          norm_num [Int.floor_eq_iff])]
    rfl
  have h4 : ((2000 : ℚ) + 2000) / 1000 = 4 := by norm_num
  refine ⟨hval, h4, ?_, ?_, ?_⟩
  · rw [hval, hstr1]
  · rw [h4, hstr2]
  · rw [hval, h4]
    norm_num

/-! ### Claim C7: the text sanitizer -/

/-- Claim C7: `escapeAssText` converts newlines to the `\N` marker *before*
escaping backslashes, so the marker's own backslash is then escaped: the
input `"a\nb"` yields the five characters `a \ \ N b` rather than the
marker-preserving `a \ N b`, i.e. the original newline position is not
preserved as an unescaped line-break marker. -/
theorem escapeAssText_newline_bug :
    escapeAssText (some ("a\nb".toList)) = "a\\\\Nb".toList
    ∧ escapeAssText (some ("a\nb".toList)) ≠ "a\\Nb".toList := by
  exact ⟨by decide, by decide⟩

/-! ### Claim C1: one event per non-empty caption line -/

/-- The two-frame example input of the specification's end-to-end scenario. -/
def exampleFrames : List Frame :=
  [⟨some 0, some 2000, some ("Hello".toList), some ("World".toList)⟩,
   ⟨some 2000, some 4000, some ("".toList), some ("Bye".toList)⟩]

/-- The code's event guard holds exactly on line fields that are present
and not whitespace-only. -/
theorem serverLineCond_trim (l : Option JStr) :
    serverLineCond l = (match l with
      | some s => decide (jsTrim s ≠ [])
      | none => false) := by
  match l with
  | none => rfl
  | some s =>
    by_cases h : s = []
    · subst h; rfl
    · simp [serverLineCond, h]

/-- Per-frame event count and shape. -/
theorem serverFrameEvents_shape (f : Frame) :
    (serverFrameEvents f).length
      = (if serverLineCond f.line1 then 1 else 0)
        + (if serverLineCond f.line2 then 1 else 0)
    ∧ (serverFrameEvents f).all (fun e => e.take 10 == "Dialogue: ".toList) := by
  unfold serverFrameEvents
  by_cases h1 : serverLineCond f.line1 <;> by_cases h2 : serverLineCond f.line2 <;>
    simp [h1, h2] <;> constructor <;> rfl

/-- Claim C1: the subtitle document builder of `src/server.js` emits one
`Dialogue` event for each line field that is present and not
whitespace-only, and no event for an absent, empty or whitespace-only line
field; each emitted event is a `Dialogue` line; on the two-frame example
input the document carries exactly 3 events. -/
theorem framesToAss_event_count :
    (∀ frames : List Frame,
      (serverFramesToAssEvents frames).length
        = (frames.map (fun f =>
            (match f.line1 with
              | some s => if jsTrim s ≠ [] then 1 else 0
              | none => 0)
            + (match f.line2 with
              | some s => if jsTrim s ≠ [] then 1 else 0
              | none => 0))).sum)
    ∧ (∀ frames : List Frame,
      (serverFramesToAssEvents frames).all (fun e => e.take 10 == "Dialogue: ".toList))
    ∧ (serverFramesToAssEvents exampleFrames).length = 3 := by
  have hcount : ∀ f : Frame, (serverFrameEvents f).length
      = (match f.line1 with
          | some s => if jsTrim s ≠ [] then 1 else 0
          | none => 0)
        + (match f.line2 with
          | some s => if jsTrim s ≠ [] then 1 else 0
          | none => 0) := by
    intro f
    rw [(serverFrameEvents_shape f).1]
    rw [serverLineCond_trim f.line1, serverLineCond_trim f.line2]
    match h1 : f.line1, h2 : f.line2 with
    | none, none => rfl
    | none, some s2 => by_cases h : jsTrim s2 ≠ [] <;> simp [h]
    | some s1, none => by_cases h : jsTrim s1 ≠ [] <;> simp [h]
    | some s1, some s2 =>
      by_cases ha : jsTrim s1 ≠ [] <;> by_cases hb : jsTrim s2 ≠ [] <;> simp [ha, hb]
  refine ⟨?_, ?_, by decide⟩
  · intro frames
    induction frames with
    | nil => rfl
    | cons f fs ih =>
      simp only [serverFramesToAssEvents, List.flatMap_cons, List.length_append,
        List.map_cons, List.sum_cons] at ih ⊢
      rw [hcount f, ih]
  · intro frames
    induction frames with
    | nil => rfl
    | cons f fs ih =>
      simp only [serverFramesToAssEvents, List.flatMap_cons, List.all_append] at ih ⊢
      rw [(serverFrameEvents_shape f).2, ih]
      rfl

/-! ### Claim C10: determinism of the document builder -/

/-- Claim C10: the subtitle document builder is a pure function of its argument
tuple: two invocations on equal frames, styles and canvas sizes produce
identical document strings (there is no dependence on time, randomness or
external state in the embedding, which is total and deterministic). -/
theorem framesToAss_deterministic :
    ∀ (frames1 frames2 : List Frame) (styles1 styles2 : Option Styles)
      (x1 x2 y1 y2 : ℕ),
      frames1 = frames2 → styles1 = styles2 → x1 = x2 → y1 = y2 →
      serverFramesToAss frames1 styles1 x1 y1 = serverFramesToAss frames2 styles2 x2 y2 := by
  intro frames1 frames2 styles1 styles2 x1 x2 y1 y2 hf hs hx hy
  rw [hf, hs, hx, hy]

/-- Witness for C10 at a concrete invocation. -/
theorem framesToAss_deterministic_witness :
    exampleFrames = exampleFrames
    ∧ serverFramesToAss exampleFrames none 1920 1080
        = serverFramesToAss exampleFrames none 1920 1080 :=
  ⟨rfl, framesToAss_deterministic exampleFrames exampleFrames none none
      1920 1920 1080 1080 rfl rfl rfl rfl⟩

/-! ### Claim C5: time-codec helpers -/

theorem digitChar_toNat (d : ℕ) (h : d < 10) : (digitChar d).toNat = 48 + d := by
  interval_cases d <;> decide

theorem digitChar_isDigit (d : ℕ) (h : d < 10) : isDigitChar (digitChar d) = true := by
  interval_cases d <;> decide

theorem digitChar_ne_colon (d : ℕ) (h : d < 10) : digitChar d ≠ ':' := by
  interval_cases d <;> decide

theorem digitChar_ne_dot (d : ℕ) (h : d < 10) : digitChar d ≠ '.' := by
  interval_cases d <;> decide

theorem natToCharsAux_congr (n : ℕ) :
    ∀ f1 f2 : ℕ, n < f1 → n < f2 → natToCharsAux f1 n = natToCharsAux f2 n := by
  induction n using Nat.strong_induction_on with
  | _ n ih =>
    intro f1 f2 h1 h2
    match f1, f2 with
    | fa + 1, fb + 1 =>
      simp only [natToCharsAux]
      by_cases h : n < 10
      · simp [h]
      · have hdiv : n / 10 < n := Nat.div_lt_self (by omega) (by omega)
        simp only [h, if_false]
        rw [ih (n / 10) hdiv fa fb (by omega) (by omega)]

theorem natToCharsAux_succ (f n : ℕ) :
    natToCharsAux (f + 1) n = if n < 10 then [digitChar n]
      else natToCharsAux f (n / 10) ++ [digitChar (n % 10)] := rfl

theorem natToChars_eq (n : ℕ) :
    natToChars n = if n < 10 then [digitChar n]
      else natToChars (n / 10) ++ [digitChar (n % 10)] := by
  unfold natToChars
  by_cases h : n < 10
  · rw [natToCharsAux_succ, if_pos h, if_pos h]
  · have hdiv : n / 10 < n := Nat.div_lt_self (by omega) (by omega)
    rw [natToCharsAux_succ, if_neg h, if_neg h]
    congr 1
    exact natToCharsAux_congr (n / 10) n (n / 10 + 1) hdiv (by omega)

theorem natToChars_digits (n : ℕ) :
    ∀ c ∈ natToChars n, isDigitChar c = true := by
  induction n using Nat.strong_induction_on with
  | _ n ih =>
    rw [natToChars_eq]
    by_cases h : n < 10
    · simp only [h, if_true, List.mem_singleton]
      intro c hc
      subst hc
      exact digitChar_isDigit n h
    · have hdiv : n / 10 < n := Nat.div_lt_self (by omega) (by omega)
      simp only [h, if_false, List.mem_append, List.mem_singleton]
      intro c hc
      rcases hc with hc | hc
      · exact ih (n / 10) hdiv c hc
      · subst hc
        exact digitChar_isDigit (n % 10) (Nat.mod_lt n (by omega))

theorem natToChars_ne_nil (n : ℕ) : natToChars n ≠ [] := by
  rw [natToChars_eq]
  by_cases h : n < 10 <;> simp [h]

theorem digitsVal_append_digit (l : List Char) (c : Char) :
    digitsVal (l ++ [c]) = 10 * digitsVal l + (c.toNat - 48) := by
  simp [digitsVal, List.foldl_append]

theorem digitsVal_natToChars (n : ℕ) : digitsVal (natToChars n) = n := by
  induction n using Nat.strong_induction_on with
  | _ n ih =>
    rw [natToChars_eq]
    by_cases h : n < 10
    · simp only [h, if_true]
      simp [digitsVal, digitChar_toNat n h]
    · have hdiv : n / 10 < n := Nat.div_lt_self (by omega) (by omega)
      simp only [h, if_false]
      rw [digitsVal_append_digit, ih (n / 10) hdiv,
        digitChar_toNat (n % 10) (Nat.mod_lt n (by omega))]
      omega

theorem takeWhile_append_stop (p : Char → Bool) :
    ∀ (l : List Char) (x : Char) (r : List Char),
      (∀ c ∈ l, p c = true) → p x = false →
      (l ++ x :: r).takeWhile p = l ∧ (l ++ x :: r).dropWhile p = x :: r := by
  intro l x r hl hx
  induction l with
  | nil => simp [List.takeWhile, List.dropWhile, hx]
  | cons a l ih =>
    have ha : p a = true := hl a (by simp)
    have hrest : ∀ c ∈ l, p c = true := fun c hc => hl c (by simp [hc])
    obtain ⟨ht, hd⟩ := ih hrest
    refine ⟨?_, ?_⟩
    · simp [List.takeWhile, ha, ht]
    · simp [List.dropWhile, ha, hd]

theorem padStart2_two_digits (n : ℕ) (h : n < 100) :
    padStart2 (natToChars n) = [digitChar (n / 10), digitChar (n % 10)] := by
  by_cases h10 : n < 10
  · rw [natToChars_eq]
    simp only [h10, if_true]
    have : n / 10 = 0 := Nat.div_eq_of_lt h10
    have hm : n % 10 = n := Nat.mod_eq_of_lt h10
    simp [padStart2, this, hm, digitChar]
  · rw [natToChars_eq]
    simp only [h10, if_false]
    have hdiv10 : n / 10 < 10 := by omega
    rw [natToChars_eq (n / 10)]
    simp only [hdiv10, if_true]
    simp [padStart2]

theorem intToChars_of_nonneg (i : ℤ) (h : 0 ≤ i) :
    intToChars i = natToChars i.toNat := by
  simp [intToChars, not_lt.mpr h, Int.not_lt.mpr h]

theorem isDigitChar_ne_sep (c : Char) (h : isDigitChar c = true) :
    c ≠ ':' ∧ c ≠ '.' := by
  constructor
  · intro hc
    subst hc
    exact absurd h (by decide)
  · intro hc
    subst hc
    exact absurd h (by decide)

theorem digitsVal_two (m : ℕ) (h : m < 100) :
    digitsVal [digitChar (m / 10), digitChar (m % 10)] = m := by
  have h1 : m / 10 < 10 := by omega
  have h2 : m % 10 < 10 := by omega
  simp only [digitsVal, List.foldl_cons, List.foldl_nil]
  rw [digitChar_toNat _ h1, digitChar_toNat _ h2]
  omega

theorem notColon_of_digits (l : List Char) (hl : ∀ c ∈ l, isDigitChar c = true) :
    ∀ c ∈ l, notColon c = true := by
  intro c hc
  have h := (isDigitChar_ne_sep c (hl c hc)).1
  simp [notColon, h]

theorem notDot_of_digits (l : List Char) (hl : ∀ c ∈ l, isDigitChar c = true) :
    ∀ c ∈ l, notDot c = true := by
  intro c hc
  have h := (isDigitChar_ne_sep c (hl c hc)).2
  simp [notDot, h]

theorem digitPair_digits (a b : ℕ) (ha : a < 10) (hb : b < 10) :
    ∀ c ∈ [digitChar a, digitChar b], isDigitChar c = true := by
  intro c hc
  simp only [List.mem_cons, List.not_mem_nil, or_false] at hc
  rcases hc with hc | hc <;> subst hc
  · exact digitChar_isDigit a ha
  · exact digitChar_isDigit b hb

theorem jsMod_of_nonneg (t b : ℚ) (ht : 0 ≤ t) (hb : 0 < b) :
    jsMod t b = t - b * (⌊t / b⌋ : ℚ) := by
  simp only [jsMod, jsTrunc]
  rw [if_pos (div_nonneg ht hb.le)]

theorem jsMod_bounds (t b : ℚ) (ht : 0 ≤ t) (hb : 0 < b) :
    0 ≤ jsMod t b ∧ jsMod t b < b := by
  rw [jsMod_of_nonneg t b ht hb]
  have heq : b * (t / b) = t := by
    field_simp
  constructor
  · have h1 : (⌊t / b⌋ : ℚ) ≤ t / b := Int.floor_le _
    have h2 := mul_le_mul_of_nonneg_left h1 hb.le
    linarith
  · have h1 : t / b < (⌊t / b⌋ : ℚ) + 1 := Int.lt_floor_add_one _
    have h2 := mul_lt_mul_of_pos_left h1 hb
    have h3 : b * ((⌊t / b⌋ : ℚ) + 1) = b * (⌊t / b⌋ : ℚ) + b := by ring
    linarith

theorem floor_time_decomp (t : ℚ) (ht : 0 ≤ t) :
    3600 * ⌊t / 3600⌋ + 60 * ⌊jsMod t 3600 / 60⌋ + ⌊jsMod t 60⌋ = ⌊t⌋ := by
  have hr : jsMod t 3600 = t - 3600 * (⌊t / 3600⌋ : ℚ) :=
    jsMod_of_nonneg t 3600 ht (by norm_num)
  have hB : ⌊t / 60⌋ = 60 * ⌊t / 3600⌋ + ⌊jsMod t 3600 / 60⌋ := by
    rw [hr]
    have hsplit : t / 60 = ((60 * ⌊t / 3600⌋ : ℤ) : ℚ)
        + (t - 3600 * (⌊t / 3600⌋ : ℚ)) / 60 := by
      push_cast
      ring
    rw [hsplit, Int.floor_int_add]
  have hs : ⌊jsMod t 60⌋ = ⌊t⌋ - 60 * ⌊t / 60⌋ := by
    rw [jsMod_of_nonneg t 60 ht (by norm_num)]
    have : t - 60 * (⌊t / 60⌋ : ℚ) = t - ((60 * ⌊t / 60⌋ : ℤ) : ℚ) := by
      push_cast
      ring
    rw [this, Int.floor_sub_int]
  omega

/-- Claim C5: for every non-negative `t`, the formatted timestamp has the
exact shape `H:MM:SS.cc` — hours rendered unpadded, minutes, seconds and
centiseconds as exactly two digits each with `M, S < 60` and `C < 100` —
and reparsing the produced string under the same grammar recovers a value
`v` with `0 ≤ t - v < 1/100`, i.e. `t` up to one centisecond. -/
theorem secToAss_roundtrip (t : ℚ) (ht : 0 ≤ t) :
    ∃ H M S C : ℕ, M < 60 ∧ S < 60 ∧ C < 100 ∧
      secToAss t = natToChars H
        ++ ':' :: ([digitChar (M / 10), digitChar (M % 10)]
        ++ ':' :: ([digitChar (S / 10), digitChar (S % 10)]
        ++ '.' :: [digitChar (C / 10), digitChar (C % 10)]))
      ∧ parseAssTime (secToAss t)
          = some ((H : ℚ) * 3600 + (M : ℚ) * 60 + (S : ℚ) + (C : ℚ) / 100)
      ∧ 0 ≤ t - ((H : ℚ) * 3600 + (M : ℚ) * 60 + (S : ℚ) + (C : ℚ) / 100)
      ∧ t - ((H : ℚ) * 3600 + (M : ℚ) * 60 + (S : ℚ) + (C : ℚ) / 100) < 1 / 100 := by
  -- the four integer components
  have hA0 : (0 : ℤ) ≤ ⌊t / 3600⌋ := Int.floor_nonneg.mpr (by positivity)
  obtain ⟨hr0, hr1⟩ := jsMod_bounds t 3600 ht (by norm_num)
  have hM0 : (0 : ℤ) ≤ ⌊jsMod t 3600 / 60⌋ := Int.floor_nonneg.mpr (by positivity)
  have hM1 : ⌊jsMod t 3600 / 60⌋ < 60 := Int.floor_lt.mpr (by
    push_cast
    rw [div_lt_iff (by norm_num : (0:ℚ) < 60)]
    linarith)
  obtain ⟨hs0, hs1⟩ := jsMod_bounds t 60 ht (by norm_num)
  have hS0 : (0 : ℤ) ≤ ⌊jsMod t 60⌋ := Int.floor_nonneg.mpr hs0
  have hS1 : ⌊jsMod t 60⌋ < 60 := Int.floor_lt.mpr (by push_cast; linarith)
  have hfr0 : (0 : ℚ) ≤ t - (⌊t⌋ : ℚ) := by
    have := Int.floor_le t
    linarith
  have hfr1 : t - (⌊t⌋ : ℚ) < 1 := by
    have := Int.lt_floor_add_one t
    push_cast at this
    linarith
  have hC0 : (0 : ℤ) ≤ ⌊(t - (⌊t⌋ : ℚ)) * 100⌋ := Int.floor_nonneg.mpr (by positivity)
  have hC1 : ⌊(t - (⌊t⌋ : ℚ)) * 100⌋ < 100 := Int.floor_lt.mpr (by push_cast; linarith)
  -- abbreviations for the four natural components
  set H : ℕ := ⌊t / 3600⌋.toNat with hHdef
  set M : ℕ := ⌊jsMod t 3600 / 60⌋.toNat with hMdef
  set S : ℕ := ⌊jsMod t 60⌋.toNat with hSdef
  set C : ℕ := ⌊(t - (⌊t⌋ : ℚ)) * 100⌋.toNat with hCdef
  have hMlt : M < 60 := by omega
  have hSlt : S < 60 := by omega
  have hClt : C < 100 := by omega
  -- the rendered string
  have hfmt : secToAss t
      = natToChars H
        ++ ':' :: ([digitChar (M / 10), digitChar (M % 10)]
        ++ ':' :: ([digitChar (S / 10), digitChar (S % 10)]
        ++ '.' :: [digitChar (C / 10), digitChar (C % 10)])) := by
    simp only [secToAss]
    rw [intToChars_of_nonneg _ hA0, intToChars_of_nonneg _ hM0,
      intToChars_of_nonneg _ hS0, intToChars_of_nonneg _ hC0,
      ← hHdef, ← hMdef, ← hSdef, ← hCdef,
      padStart2_two_digits M (by omega), padStart2_two_digits S (by omega),
      padStart2_two_digits C (by omega)]
    simp [List.append_assoc]
  -- reparsing the rendered string
  have hHdig := natToChars_digits H
  have hMdig := digitPair_digits (M / 10) (M % 10) (by omega) (by omega)
  have hSdig := digitPair_digits (S / 10) (S % 10) (by omega) (by omega)
  have hCdig := digitPair_digits (C / 10) (C % 10) (by omega) (by omega)
  obtain ⟨htake1, hdrop1⟩ := takeWhile_append_stop notColon (natToChars H) ':'
    ([digitChar (M / 10), digitChar (M % 10)]
      ++ ':' :: ([digitChar (S / 10), digitChar (S % 10)]
      ++ '.' :: [digitChar (C / 10), digitChar (C % 10)]))
    (notColon_of_digits _ hHdig) (by decide)
  obtain ⟨htake2, hdrop2⟩ := takeWhile_append_stop notColon
    [digitChar (M / 10), digitChar (M % 10)] ':'
    ([digitChar (S / 10), digitChar (S % 10)]
      ++ '.' :: [digitChar (C / 10), digitChar (C % 10)])
    (notColon_of_digits _ hMdig) (by decide)
  obtain ⟨htake3, hdrop3⟩ := takeWhile_append_stop notDot
    [digitChar (S / 10), digitChar (S % 10)] '.'
    [digitChar (C / 10), digitChar (C % 10)]
    (notDot_of_digits _ hSdig) (by decide)
  have hparse : parseAssTime (secToAss t)
      = some ((H : ℚ) * 3600 + (M : ℚ) * 60 + (S : ℚ) + (C : ℚ) / 100) := by
    have hallH : (natToChars H).all isDigitChar = true := by
      rw [List.all_eq_true]
      exact hHdig
    have hallM : ([digitChar (M / 10), digitChar (M % 10)]).all isDigitChar = true := by
      rw [List.all_eq_true]
      exact hMdig
    have hallS : ([digitChar (S / 10), digitChar (S % 10)]).all isDigitChar = true := by
      rw [List.all_eq_true]
      exact hSdig
    have hallC : ([digitChar (C / 10), digitChar (C % 10)]).all isDigitChar = true := by
      rw [List.all_eq_true]
      exact hCdig
    rw [hfmt]
    simp only [parseAssTime, htake1, hdrop1, List.drop_succ_cons, List.drop_zero,
      htake2, hdrop2, htake3, hdrop3]
    rw [if_pos ⟨natToChars_ne_nil H, hallH, rfl, hallM, rfl, hallS, rfl, hallC⟩]
    rw [digitsVal_natToChars, digitsVal_two M (by omega), digitsVal_two S (by omega),
      digitsVal_two C hClt]
  -- the arithmetic error bound
  have hHcast : (H : ℚ) = (⌊t / 3600⌋ : ℚ) := by
    rw [hHdef]
    exact_mod_cast congrArg (fun z : ℤ => (z : ℚ)) (Int.toNat_of_nonneg hA0)
  have hMcast : (M : ℚ) = (⌊jsMod t 3600 / 60⌋ : ℚ) := by
    rw [hMdef]
    exact_mod_cast congrArg (fun z : ℤ => (z : ℚ)) (Int.toNat_of_nonneg hM0)
  have hScast : (S : ℚ) = (⌊jsMod t 60⌋ : ℚ) := by
    rw [hSdef]
    exact_mod_cast congrArg (fun z : ℤ => (z : ℚ)) (Int.toNat_of_nonneg hS0)
  have hCcast : (C : ℚ) = (⌊(t - (⌊t⌋ : ℚ)) * 100⌋ : ℚ) := by
    rw [hCdef]
    exact_mod_cast congrArg (fun z : ℤ => (z : ℚ)) (Int.toNat_of_nonneg hC0)
  have hsum : (H : ℚ) * 3600 + (M : ℚ) * 60 + (S : ℚ) = (⌊t⌋ : ℚ) := by
    have hdec := floor_time_decomp t ht
    have : ((3600 * ⌊t / 3600⌋ + 60 * ⌊jsMod t 3600 / 60⌋ + ⌊jsMod t 60⌋ : ℤ) : ℚ)
        = ((⌊t⌋ : ℤ) : ℚ) := by
      exact_mod_cast congrArg (fun z : ℤ => (z : ℚ)) hdec
    push_cast at this
    rw [hHcast, hMcast, hScast]
    linarith
  have hCle : (C : ℚ) ≤ (t - (⌊t⌋ : ℚ)) * 100 := by
    rw [hCcast]
    exact Int.floor_le _
  have hCgt : (t - (⌊t⌋ : ℚ)) * 100 < (C : ℚ) + 1 := by
    rw [hCcast]
    exact Int.lt_floor_add_one _
  refine ⟨H, M, S, C, hMlt, hSlt, hClt, hfmt, hparse, ?_, ?_⟩
  · have : (H : ℚ) * 3600 + (M : ℚ) * 60 + (S : ℚ) + (C : ℚ) / 100
        = (⌊t⌋ : ℚ) + (C : ℚ) / 100 := by
      rw [hsum]
    rw [this]
    linarith
  · have : (H : ℚ) * 3600 + (M : ℚ) * 60 + (S : ℚ) + (C : ℚ) / 100
        = (⌊t⌋ : ℚ) + (C : ℚ) / 100 := by
      rw [hsum]
    rw [this]
    linarith

/-- Witness for C5 at the concrete input `t = 5/2` seconds. -/
theorem secToAss_roundtrip_witness :
    0 ≤ (5 / 2 : ℚ)
    ∧ ∃ H M S C : ℕ, M < 60 ∧ S < 60 ∧ C < 100 ∧
        secToAss (5 / 2 : ℚ) = natToChars H
          ++ ':' :: ([digitChar (M / 10), digitChar (M % 10)]
          ++ ':' :: ([digitChar (S / 10), digitChar (S % 10)]
          ++ '.' :: [digitChar (C / 10), digitChar (C % 10)]))
        ∧ parseAssTime (secToAss (5 / 2 : ℚ))
            = some ((H : ℚ) * 3600 + (M : ℚ) * 60 + (S : ℚ) + (C : ℚ) / 100)
        ∧ 0 ≤ (5 / 2 : ℚ) - ((H : ℚ) * 3600 + (M : ℚ) * 60 + (S : ℚ) + (C : ℚ) / 100)
        ∧ (5 / 2 : ℚ) - ((H : ℚ) * 3600 + (M : ℚ) * 60 + (S : ℚ) + (C : ℚ) / 100) < 1 / 100 :=
  ⟨by norm_num, secToAss_roundtrip (5 / 2 : ℚ) (by norm_num)⟩

/-! ### Claim C2: the layout invariant -/

theorem jsRound_le (x : ℚ) : (jsRound x : ℚ) ≤ x + 1 / 2 := Int.floor_le _

theorem lt_jsRound (x : ℚ) : x - 1 / 2 < (jsRound x : ℚ) := by
  have h := Int.lt_floor_add_one (x + 1 / 2)
  simp only [jsRound]
  push_cast at h ⊢
  linarith

theorem jsRound_nonneg (x : ℚ) (h : 0 ≤ x) : 0 ≤ jsRound x :=
  Int.floor_nonneg.mpr (by linarith)

theorem p1scale_pos (h : ℕ) : 0 < p1scale (h : ℚ) := by
  unfold p1scale REF_HEIGHT
  by_cases hz : (h : ℚ) = 0
  · rw [if_pos hz]
    norm_num
  · rw [if_neg hz]
    have : (0 : ℚ) < (h : ℚ) := lt_of_le_of_ne (by positivity) (Ne.symm hz)
    positivity

/-- The style object of the C2 counterexample: all defaults except
`paddingBottom = 2000`. -/
def cexStyles : Styles :=
  ⟨none, none, none, none, none, none, none, none, none, none, false, false, some 2000⟩

/-- Claim C2 counterexample: with `paddingBottom = 2000` (a legal `StyleConfig`
number) and an actual video height of 1080, the computed bottom-line Y is
−920, which lies outside `[0, videoHeight]` — the claimed containment fails
as stated. -/
theorem layout_bounds_cex :
    p1YposLine2 [] cexStyles 1080 = -920
    ∧ ¬ ((0 : ℚ) ≤ p1YposLine2 [] cexStyles 1080
          ∧ p1YposLine2 [] cexStyles 1080 ≤ 1080) := by
  have hscale : p1scale 1080 = 1 := by
    norm_num [p1scale, REF_HEIGHT]
  have hpad : p1padScaled cexStyles 1080 = 2000 := by
    simp only [p1padScaled, cexStyles, Option.getD, hscale]
    norm_num [jsRound, Int.floor_eq_iff]
  have h2 : p1YposLine2 [] cexStyles 1080 = -920 := by
    simp only [p1YposLine2, p1twoLinePresent, List.any_nil, Bool.false_eq_true,
      if_false, hpad]
    norm_num
  refine ⟨h2, ?_⟩
  rw [h2]
  intro hcontra
  linarith [hcontra.1]

/-- Bound used for C2: the clamped `part_001` top font size. -/
theorem p1fontSizeTop_bounds (styles : Styles) (v : ℚ) :
    18 ≤ p1fontSizeTop styles v
    ∧ (p1fontSizeTop styles v : ℚ)
        ≤ max 18 ((jsRound (jsNumOr styles.fontSizeTop 40 * p1scale v) : ℤ) : ℚ) := by
  constructor
  · exact le_max_left _ _
  · have h1 : p1fontSizeTop styles v
        ≤ max 18 (jsRound (jsNumOr styles.fontSizeTop 40 * p1scale v)) :=
      max_le_max (le_refl _) (min_le_right _ _)
    rcases le_total (18 : ℤ) (jsRound (jsNumOr styles.fontSizeTop 40 * p1scale v)) with hc | hc
    · rw [max_eq_right (by exact_mod_cast hc)]
      exact_mod_cast le_trans h1 (le_of_eq (max_eq_right hc))
    · rw [max_eq_left (by exact_mod_cast hc)]
      exact_mod_cast le_trans h1 (le_of_eq (max_eq_left hc))

/-- Bound used for C2: the clamped `part_001` bottom font size. -/
theorem p1fontSizeBottom_bounds (styles : Styles) (v : ℚ) :
    20 ≤ p1fontSizeBottom styles v
    ∧ (p1fontSizeBottom styles v : ℚ)
        ≤ max 20 ((jsRound (jsNumOr styles.fontSizeBottom 52 * p1scale v) : ℤ) : ℚ) := by
  constructor
  · exact le_max_left _ _
  · have h1 : p1fontSizeBottom styles v
        ≤ max 20 (jsRound (jsNumOr styles.fontSizeBottom 52 * p1scale v)) :=
      max_le_max (le_refl _) (min_le_right _ _)
    rcases le_total (20 : ℤ) (jsRound (jsNumOr styles.fontSizeBottom 52 * p1scale v)) with hc | hc
    · rw [max_eq_right (by exact_mod_cast hc)]
      exact_mod_cast le_trans h1 (le_of_eq (max_eq_right hc))
    · rw [max_eq_left (by exact_mod_cast hc)]
      exact_mod_cast le_trans h1 (le_of_eq (max_eq_left hc))

/-- Claim C2 (amended): the ordering half of the invariant holds unconditionally —
for every style object, frame list and natural video height the computed
top-line Y is strictly above (less than) the bottom-line Y.  The
containment half holds for the default style whenever the video height is
at least 360 (the counterexample shows it fails for unrestricted styles). -/
theorem layout_invariant_amended :
    (∀ (frames : List Frame) (styles : Styles) (h : ℕ),
      p1YposLine1 frames styles (h : ℚ) < p1YposLine2 frames styles (h : ℚ))
    ∧ (∀ (frames : List Frame) (h : ℕ), 360 ≤ h →
        0 ≤ p1YposLine1 frames emptyStyles (h : ℚ)
        ∧ p1YposLine2 frames emptyStyles (h : ℚ) ≤ (h : ℚ)) := by
  constructor
  · intro frames styles h
    have hB := (p1fontSizeBottom_bounds styles (h : ℚ)).1
    have hT := (p1fontSizeTop_bounds styles (h : ℚ)).1
    have hBq : (20 : ℚ) ≤ (p1fontSizeBottom styles (h : ℚ) : ℚ) := by exact_mod_cast hB
    have hTq : (18 : ℚ) ≤ (p1fontSizeTop styles (h : ℚ) : ℚ) := by exact_mod_cast hT
    have hg : (0 : ℤ) ≤ p1baseGap (h : ℚ) :=
      jsRound_nonneg _ (mul_nonneg (by norm_num) (p1scale_pos h).le)
    have hgq : (0 : ℚ) ≤ (p1baseGap (h : ℚ) : ℚ) := by exact_mod_cast hg
    unfold p1YposLine1
    linarith
  · intro frames h hh
    have hv : (360 : ℚ) ≤ (h : ℚ) := by exact_mod_cast hh
    have hvne : (h : ℚ) ≠ 0 := by
      intro hz
      rw [hz] at hv
      linarith
    have hs : p1scale (h : ℚ) = (h : ℚ) / 1080 := by
      unfold p1scale REF_HEIGHT
      rw [if_neg hvne]
    have hs3 : (1 : ℚ) / 3 ≤ (h : ℚ) / 1080 := by
      rw [div_le_div_iff (by norm_num) (by norm_num)]
      linarith
    have hv1080 : (h : ℚ) = 1080 * ((h : ℚ) / 1080) := by
      field_simp
    -- component bounds under the default style
    have hTub : (p1fontSizeTop emptyStyles (h : ℚ) : ℚ)
        ≤ 18.5 + 40 * ((h : ℚ) / 1080) := by
      have h2 := (p1fontSizeTop_bounds emptyStyles (h : ℚ)).2
      have hraw : jsNumOr emptyStyles.fontSizeTop 40 = 40 := rfl
      rw [hraw, hs] at h2
      have hrle := jsRound_le (40 * ((h : ℚ) / 1080))
      refine le_trans h2 (max_le (by linarith) (by linarith))
    have hBub : (p1fontSizeBottom emptyStyles (h : ℚ) : ℚ)
        ≤ 20.5 + 52 * ((h : ℚ) / 1080) := by
      have h2 := (p1fontSizeBottom_bounds emptyStyles (h : ℚ)).2
      have hraw : jsNumOr emptyStyles.fontSizeBottom 52 = 52 := rfl
      rw [hraw, hs] at h2
      have hrle := jsRound_le (52 * ((h : ℚ) / 1080))
      refine le_trans h2 (max_le (by linarith) (by linarith))
    have hBlb : (20 : ℚ) ≤ (p1fontSizeBottom emptyStyles (h : ℚ) : ℚ) := by
      exact_mod_cast (p1fontSizeBottom_bounds emptyStyles (h : ℚ)).1
    have hTlb : (18 : ℚ) ≤ (p1fontSizeTop emptyStyles (h : ℚ) : ℚ) := by
      exact_mod_cast (p1fontSizeTop_bounds emptyStyles (h : ℚ)).1
    have hpadeq : p1padScaled emptyStyles (h : ℚ) = jsRound (120 * ((h : ℚ) / 1080)) := by
      unfold p1padScaled
      rw [show emptyStyles.paddingBottom.getD 120 = 120 from rfl, hs]
    have hpadub : (p1padScaled emptyStyles (h : ℚ) : ℚ)
        ≤ 120 * ((h : ℚ) / 1080) + 1 / 2 := by
      rw [hpadeq]
      exact jsRound_le _
    have hpadlb : 120 * ((h : ℚ) / 1080) - 1 / 2
        < (p1padScaled emptyStyles (h : ℚ) : ℚ) := by
      rw [hpadeq]
      exact lt_jsRound _
    have hgapeq : p1baseGap (h : ℚ) = jsRound (20 * ((h : ℚ) / 1080)) := by
      unfold p1baseGap
      rw [hs]
    have hgapub : (p1baseGap (h : ℚ) : ℚ) ≤ 20 * ((h : ℚ) / 1080) + 1 / 2 := by
      rw [hgapeq]
      exact jsRound_le _
    have hgaplb : (0 : ℚ) ≤ (p1baseGap (h : ℚ) : ℚ) := by
      have : (0 : ℤ) ≤ p1baseGap (h : ℚ) := by
        rw [hgapeq]
        exact jsRound_nonneg _ (by positivity)
      exact_mod_cast this
    by_cases htwo : p1twoLinePresent frames
    · -- some frame has both lines: the bottom anchor is nudged down
      have hnub : ((jsRound ((p1fontSizeBottom emptyStyles (h : ℚ) : ℚ) * 0.28) : ℤ) : ℚ)
          ≤ (p1fontSizeBottom emptyStyles (h : ℚ) : ℚ) * 0.28 + 1 / 2 := jsRound_le _
      have hnlb : (0 : ℚ)
          ≤ ((jsRound ((p1fontSizeBottom emptyStyles (h : ℚ) : ℚ) * 0.28) : ℤ) : ℚ) := by
        have : (0 : ℤ) ≤ jsRound ((p1fontSizeBottom emptyStyles (h : ℚ) : ℚ) * 0.28) :=
          jsRound_nonneg _ (by linarith)
        exact_mod_cast this
      unfold p1YposLine1 p1YposLine2
      rw [if_pos htwo]
      constructor
      · linarith
      · linarith
    · -- no frame has both lines
      unfold p1YposLine1 p1YposLine2
      rw [if_neg htwo]
      constructor
      · linarith
      · linarith

/-- Witness for C2's amended statement at a concrete input. -/
theorem layout_invariant_amended_witness :
    p1YposLine1 exampleFrames emptyStyles ((1080 : ℕ) : ℚ)
      < p1YposLine2 exampleFrames emptyStyles ((1080 : ℕ) : ℚ)
    ∧ 360 ≤ 1080
    ∧ 0 ≤ p1YposLine1 exampleFrames emptyStyles ((1080 : ℕ) : ℚ)
    ∧ p1YposLine2 exampleFrames emptyStyles ((1080 : ℕ) : ℚ) ≤ ((1080 : ℕ) : ℚ) :=
  ⟨layout_invariant_amended.1 exampleFrames emptyStyles 1080,
   by norm_num,
   (layout_invariant_amended.2 exampleFrames 1080 (by norm_num)).1,
   (layout_invariant_amended.2 exampleFrames 1080 (by norm_num)).2⟩

/-! ### Claim C9: auth and validation short-circuit the pipeline -/

/-- Claim C9: a wrong credential (header or inline body field, per the code's
fallback chain) yields exactly the 401 `{status:"error",
error:"unauthorized"}` response with no pipeline step attempted; a correct
credential with a missing/empty `video_url` or `job_id` yields a 400
response with an `error` body status and, again, no pipeline step. -/
theorem auth_validation_shortcircuit :
    (∀ (secret fontsDir : JStr) (req : RenderReq) (w : World),
      jsStrOr req.headerSecret (jsStrOr req.bodySecret []) ≠ secret →
      renderHandler secret fontsDir req w
        = ⟨401, "error".toList, some ("unauthorized".toList), [], none, none⟩)
    ∧ (∀ (secret fontsDir : JStr) (req : RenderReq) (w : World),
      jsStrOr req.headerSecret (jsStrOr req.bodySecret []) = secret →
      (strTruthy req.video_url = false ∨ strTruthy req.job_id = false) →
      (renderHandler secret fontsDir req w).status = 400
      ∧ (renderHandler secret fontsDir req w).bodyStatus = "error".toList
      ∧ (renderHandler secret fontsDir req w).steps = []) := by
  constructor
  · intro secret fontsDir req w hauth
    unfold renderHandler
    rw [if_pos hauth]
  · intro secret fontsDir req w hauth hmiss
    unfold renderHandler
    rw [if_neg (by simp [hauth])]
    have hcond : (!strTruthy req.video_url || !strTruthy req.job_id) = true := by
      rcases hmiss with hm | hm <;> simp [hm]
    rw [if_pos hcond]
    exact ⟨rfl, rfl, rfl⟩

/-- A request with a wrong inline credential. -/
def reqBadSecret : RenderReq :=
  ⟨none, some ("wrong".toList), some ("j1".toList), some ("u".toList),
    none, none, none, none, none⟩

/-- An authorized request missing `job_id`. -/
def reqNoJobId : RenderReq :=
  ⟨some ("s".toList), none, none, some ("u".toList), none, none, none, none, none⟩

/-- An oracle in which every collaborator succeeds. -/
def worldAllOk : World := ⟨true, some (1920, 1080), true, true, true⟩

/-- Witness for C9 at concrete requests. -/
theorem auth_validation_shortcircuit_witness :
    renderHandler ("s".toList) ("fd".toList) reqBadSecret worldAllOk
      = ⟨401, "error".toList, some ("unauthorized".toList), [], none, none⟩
    ∧ (renderHandler ("s".toList) ("fd".toList) reqNoJobId worldAllOk).status = 400
    ∧ (renderHandler ("s".toList) ("fd".toList) reqNoJobId worldAllOk).steps = [] :=
  ⟨auth_validation_shortcircuit.1 ("s".toList) ("fd".toList) reqBadSecret worldAllOk
      (by decide),
   (auth_validation_shortcircuit.2 ("s".toList) ("fd".toList) reqNoJobId worldAllOk
      (by decide) (Or.inr (by decide))).1,
   (auth_validation_shortcircuit.2 ("s".toList) ("fd".toList) reqNoJobId worldAllOk
      (by decide) (Or.inr (by decide))).2.2⟩

/-! ### Claim C3: watermark strategy selection -/

/-- Claim C3: once auth, validation and the video download have passed, the
watermark branch is selected exactly per the table — a non-`free` tier
(e.g. `paid`) always yields `NONE` whatever the `watermark_url`; a `free`
tier yields `IMAGE` when a watermark URL is present and its download
succeeded, and `TEXT` when the URL is absent or the download failed.  The
asset download step is attempted exactly when the tier requires a watermark
and a URL is present, and a watermark download failure never fails the job:
with the remaining collaborators succeeding the response is still 200. -/
theorem watermark_mode_selection :
    ∀ (secret fontsDir : JStr) (req : RenderReq) (w : World),
      jsStrOr req.headerSecret (jsStrOr req.bodySecret []) = secret →
      strTruthy req.video_url = true → strTruthy req.job_id = true →
      w.videoDownloadOk = true →
      ((req.plan_tier = some ("paid".toList) →
          (renderHandler secret fontsDir req w).mode = some WatermarkMode.NONE)
      ∧ (req.plan_tier = some ("free".toList) → strTruthy req.watermark_url = true →
          w.watermarkDownloadOk = true →
          (renderHandler secret fontsDir req w).mode = some WatermarkMode.IMAGE)
      ∧ (req.plan_tier = some ("free".toList) → strTruthy req.watermark_url = false →
          (renderHandler secret fontsDir req w).mode = some WatermarkMode.TEXT)
      ∧ (req.plan_tier = some ("free".toList) → strTruthy req.watermark_url = true →
          w.watermarkDownloadOk = false →
          (renderHandler secret fontsDir req w).mode = some WatermarkMode.TEXT)
      ∧ (Step.downloadWatermark ∈ (renderHandler secret fontsDir req w).steps ↔
          req.plan_tier = some ("free".toList) ∧ strTruthy req.watermark_url = true)
      ∧ (w.encodeOk = true → w.uploadOk = true →
          (renderHandler secret fontsDir req w).status = 200)) := by
  intro secret fontsDir req w hauth hvu hjob hdl
  unfold renderHandler
  rw [if_neg (by simp [hauth]), if_neg (by simp [hvu, hjob]), if_neg (by simp [hdl])]
  refine ⟨?_, ?_, ?_, ?_, ?_, ?_⟩
  · intro hp
    by_cases he : w.encodeOk <;> by_cases hu : w.uploadOk <;> simp [he, hu, hp]
  · intro hp hurl hwok
    by_cases he : w.encodeOk <;> by_cases hu : w.uploadOk <;>
      simp [he, hu, hp, hurl, hwok]
  · intro hp hurl
    by_cases he : w.encodeOk <;> by_cases hu : w.uploadOk <;>
      simp [he, hu, hp, hurl]
  · intro hp hurl hwfail
    by_cases he : w.encodeOk <;> by_cases hu : w.uploadOk <;>
      simp [he, hu, hp, hurl, hwfail]
  · by_cases hfree : req.plan_tier = some ("free".toList) <;>
      by_cases hurl : strTruthy req.watermark_url <;>
      by_cases he : w.encodeOk <;> by_cases hu : w.uploadOk <;>
      by_cases hcb : strTruthy req.callback_url <;>
      simp [he, hu, hfree, hurl, hcb]
  · intro he hu
    simp [he, hu]

/-- A free-tier request with a watermark URL and correct credential. -/
def reqFree : RenderReq :=
  ⟨some ("s".toList), none, some ("j1".toList), some ("u".toList),
    none, none, none, some ("w".toList), some ("free".toList)⟩

/-- Witness for C3 at a concrete free-tier request whose watermark
download succeeds. -/
theorem watermark_mode_selection_witness :
    (renderHandler ("s".toList) ("fd".toList) reqFree worldAllOk).mode
      = some WatermarkMode.IMAGE
    ∧ (renderHandler ("s".toList) ("fd".toList) reqFree worldAllOk).status = 200 :=
  have h := watermark_mode_selection ("s".toList) ("fd".toList) reqFree worldAllOk
    (by decide) (by decide) (by decide) rfl
  ⟨h.2.1 rfl (by decide) rfl, h.2.2.2.2.2 rfl rfl⟩

/-! ### Claim C8: the image-watermark composition graph -/

/-- Claim C8: in IMAGE watermark mode the built argument list supplies the
watermark asset as file input 0 and the source video as file input 1; the
built `filter_complex` string is exactly the rendering of the structural
three-stage graph in which the scale stage consumes the watermark pad
`0:v`, the overlay stage has the video pad `1:v` as its base layer, and the
subtitle stage produces the final pad `v`; that pad is what `-map [v]`
selects, and audio is mapped as `1:a?` — input index 1, which is the
video — with the optional-stream marker `?`. -/
theorem image_watermark_graph :
    ∀ jobId fontsDir : JStr,
      inputsOf (p1ffArgsImage jobId fontsDir)
        = [p1watermarkPath jobId, p1inputPath jobId]
      ∧ p1filterComplexImage jobId fontsDir = renderGraph (p1ImageGraph jobId fontsDir)
      ∧ (p1ImageGraph jobId fontsDir).map Stage.inputs
          = [["0:v".toList], ["1:v".toList, "wm_scaled".toList], ["v_wm".toList]]
      ∧ (p1ImageGraph jobId fontsDir).map Stage.output
          = ["wm_scaled".toList, "v_wm".toList, "v".toList]
      ∧ mapsOf (p1ffArgsImage jobId fontsDir) = ["[v]".toList, "1:a?".toList]
      ∧ "[v]".toList = '[' :: "v".toList ++ [']']
      ∧ mapInputIndex ("1:a?".toList) = 1
      ∧ (inputsOf (p1ffArgsImage jobId fontsDir)).get? 1 = some (p1inputPath jobId)
      ∧ mapOptionalMarker ("1:a?".toList) = true := by
  intro jobId fontsDir
  have hL : p1filterComplexImage jobId fontsDir
      = "[0:v]scale=-1:28[wm_scaled];[1:v][wm_scaled]overlay=x=main_w-overlay_w-18:y=18[v_wm];[v_wm]".toList
        ++ (p1assFilter jobId fontsDir ++ "[v]".toList) := rfl
  have hR : renderGraph (p1ImageGraph jobId fontsDir)
      = "[0:v]scale=-1:28[wm_scaled];[1:v][wm_scaled]overlay=x=main_w-overlay_w-18:y=18[v_wm];[v_wm]".toList
        ++ ((p1assFilter jobId fontsDir ++ ('[' :: "v".toList)) ++ [']']) := rfl
  have hgraph : p1filterComplexImage jobId fontsDir
      = renderGraph (p1ImageGraph jobId fontsDir) := by
    rw [hL, hR, List.append_assoc,
      show (('[' :: "v".toList : List Char) ++ [']']) = "[v]".toList from by decide]
  exact ⟨rfl, hgraph, rfl, rfl, rfl, rfl, rfl, rfl, rfl⟩

end FfmpegRenderer
